import Mathlib

/-!
Shallow embedding of the water-quality dashboard logic
(`WaterQualityDashboard` and `ManualWaterQualityInput` components).

Modelling conventions:
* JavaScript numbers that can be `NaN` are modelled by `JVal`
  (`JVal.nan` or `JVal.fin q` with `q : ℚ`); comparisons against `NaN`
  are `false`, as in JavaScript.
* Values produced by the sample generator are plain rationals: they are
  obtained by adding a finite random draw (`Math.random()` returns a
  finite number in `[0,1)`) to finite baseline constants, so no `NaN`
  or infinity can arise there.
* Timestamps (`new Date(...).toISOString()`) are modelled as the
  underlying epoch milliseconds, an integer; `toISOString` is injective
  and monotone on them, so ordering facts transfer.
* `Math.random()` draws are passed in explicitly as rational arguments.
-/

namespace AquaEye

/-- A JavaScript number that may be `NaN`: either `nan` or a finite
rational value. -/
inductive JVal where
  | nan : JVal
  | fin : ℚ → JVal
deriving DecidableEq

/-- JavaScript `<` : any comparison involving `NaN` is `false`. -/
def jlt : JVal → JVal → Bool
  | JVal.fin a, JVal.fin b => decide (a < b)
  | _, _ => false

/-- JavaScript `<=` : any comparison involving `NaN` is `false`. -/
def jle : JVal → JVal → Bool
  | JVal.fin a, JVal.fin b => decide (a ≤ b)
  | _, _ => false

/-- JavaScript `>`. -/
def jgt (a b : JVal) : Bool := jlt b a

/-- JavaScript `>=`. -/
def jge (a b : JVal) : Bool := jle b a

/-- Returns `true` exactly on finite (non-`NaN`) values. -/
def JVal.isFinite : JVal → Bool
  | JVal.nan => false
  | JVal.fin _ => true

/-- The tri-state status returned by the classifier. -/
inductive Status where
  | good : Status
  | warning : Status
  | danger : Status
deriving DecidableEq

/-- The classifier, from the source:
`if (value < min || value > max) return 'danger';
 if (value >= optimal[0] && value <= optimal[1]) return 'good';
 return 'warning';`
(the identical function appears in both components). -/
def getStatus (value mn mx : JVal) (optimal : JVal × JVal) : Status :=
  if jlt value mn || jgt value mx then Status.danger
  else if jge value optimal.1 && jle value optimal.2 then Status.good
  else Status.warning

/-- One set of baseline parameter values for a site. -/
structure Baseline where
  pH : ℚ
  turbidity : ℚ
  temperature : ℚ
  dissolvedOxygen : ℚ
deriving DecidableEq

/-- The baseline table of the source (`getWaterBodyBaseline`),
restricted to ids that do not name an `Object.prototype` member: the
six site ids map to their own entries and any other such id falls back
to the `hussain-sagar` entry. The program only ever calls the lookup
with the six fixed site ids, all in this restriction. The full
JavaScript property-access semantics, where an id naming an inherited
`Object.prototype` member returns that truthy member so the `||`
fallback does not fire, is `waterBodyBaselineLookup`; outside
`objectPrototypeMembers` the two agree
(`waterBodyBaselineLookup_eq_baseline`). -/
def getWaterBodyBaseline (waterBodyId : String) : Baseline :=
  if waterBodyId = "hussain-sagar" then ⟨7.8, 2.5, 24, 6.5⟩
  else if waterBodyId = "musi-river" then ⟨6.8, 4.0, 26, 5.5⟩
  else if waterBodyId = "himayat-sagar" then ⟨7.2, 1.2, 22, 8.0⟩
  else if waterBodyId = "osman-sagar" then ⟨7.1, 1.0, 21, 8.5⟩
  else if waterBodyId = "durgam-cheruvu" then ⟨7.5, 1.8, 23, 7.2⟩
  else if waterBodyId = "groundwater-1" then ⟨6.9, 0.5, 25, 7.8⟩
  else ⟨7.8, 2.5, 24, 6.5⟩

/-- The six recognized site ids, in source order. -/
def waterBodyIds : List String :=
  ["hussain-sagar", "musi-river", "himayat-sagar",
   "osman-sagar", "durgam-cheruvu", "groundwater-1"]

/-- The property names an object literal inherits from
`Object.prototype`. Indexing the `baselines` literal with one of these
yields the inherited member — a function, or `Object.prototype` itself
for `__proto__` — which is truthy, so the `||` fallback does not
fire. -/
def objectPrototypeMembers : List String :=
  ["constructor", "hasOwnProperty", "isPrototypeOf",
   "propertyIsEnumerable", "toLocaleString", "toString", "valueOf",
   "__proto__", "__defineGetter__", "__defineSetter__",
   "__lookupGetter__", "__lookupSetter__"]

/-- The possible values of
`baselines[waterBodyId] || baselines['hussain-sagar']` in JavaScript:
a baseline record (an own entry of the table, or the fallback), or a
member inherited from `Object.prototype` (a truthy function or object
that is not a baseline), recorded with the name it was looked up
by. -/
inductive BaselineLookup where
  | baseline : Baseline → BaselineLookup
  | inherited : String → BaselineLookup
deriving DecidableEq

/-- The baseline lookup of the source with full JavaScript property
semantics: `baselines[waterBodyId]` finds an own entry for the six
site ids, otherwise consults the prototype chain — so a name of an
`Object.prototype` member yields that truthy inherited member — and
only when the access yields `undefined` does
`|| baselines['hussain-sagar']` supply the fallback. -/
def waterBodyBaselineLookup (waterBodyId : String) : BaselineLookup :=
  if waterBodyId = "hussain-sagar" then BaselineLookup.baseline ⟨7.8, 2.5, 24, 6.5⟩
  else if waterBodyId = "musi-river" then BaselineLookup.baseline ⟨6.8, 4.0, 26, 5.5⟩
  else if waterBodyId = "himayat-sagar" then BaselineLookup.baseline ⟨7.2, 1.2, 22, 8.0⟩
  else if waterBodyId = "osman-sagar" then BaselineLookup.baseline ⟨7.1, 1.0, 21, 8.5⟩
  else if waterBodyId = "durgam-cheruvu" then BaselineLookup.baseline ⟨7.5, 1.8, 23, 7.2⟩
  else if waterBodyId = "groundwater-1" then BaselineLookup.baseline ⟨6.9, 0.5, 25, 7.8⟩
  else if waterBodyId ∈ objectPrototypeMembers then BaselineLookup.inherited waterBodyId
  else BaselineLookup.baseline ⟨7.8, 2.5, 24, 6.5⟩

/-- One reading, as produced by the sample generator
(interface `WaterQualityData`); timestamp in epoch milliseconds. -/
structure WaterQualityData where
  pH : ℚ
  turbidity : ℚ
  temperature : ℚ
  dissolvedOxygen : ℚ
  timestamp : ℤ
deriving DecidableEq

/-- The sample generator from the source (`generateWaterBodyData`);
`u1 u2 u3 u4` are the four `Math.random()` draws and `now` the
generation instant. -/
def generateWaterBodyData (waterBodyId : String) (u1 u2 u3 u4 : ℚ)
    (now : ℤ) : WaterQualityData :=
  let baseline := getWaterBodyBaseline waterBodyId
  { pH := baseline.pH + (u1 - 0.5) * 1.0
    turbidity := max 0.1 (baseline.turbidity + (u2 - 0.5) * 1.5)
    temperature := baseline.temperature + (u3 - 0.5) * 3.0
    dissolvedOxygen := max 3 (baseline.dissolvedOxygen + (u4 - 0.5) * 2.0)
    timestamp := now }

/-- JavaScript `list.slice(-20)`: the suffix of the last (at most) 20
elements. -/
def sliceLast20 (l : List WaterQualityData) : List WaterQualityData :=
  l.drop (l.length - 20)

/-- One history update of the interval tick, from the source:
`updated[waterBody.id] = [...(prev[waterBody.id] || []), newData].slice(-20)`. -/
def appendReading (prev : List WaterQualityData) (newData : WaterQualityData) :
    List WaterQualityData :=
  sliceLast20 (prev ++ [newData])

/-- Runs `n` interval ticks starting from history `h`, where `gen k` is the
reading generated on the `k`-th tick. -/
def iterateTicks (gen : ℕ → WaterQualityData) (h : List WaterQualityData) :
    ℕ → List WaterQualityData
  | 0 => h
  | n + 1 => appendReading (iterateTicks gen h n) (gen n)

/-- The initialization seed for one site, from the source: 10 readings
with `timestamp: new Date(Date.now() - (10 - i) * 3000)` for
`i = 0, …, 9`; `gen i` is the `i`-th generated reading (its own
timestamp is overwritten). -/
def seedHistory (gen : ℕ → WaterQualityData) (now : ℤ) :
    List WaterQualityData :=
  (List.range 10).map (fun i => { gen i with timestamp := now - (10 - (i : ℤ)) * 3000 })

/-- JavaScript truthiness of a string: every string except `""` is
truthy. -/
def truthyStr (s : String) : Bool := !(s == "")

/-- The manual-entry form validity check, from the source:
`const isFormValid = formData.pH && formData.turbidity &&
formData.temperature && formData.dissolvedOxygen;`
(the submit button has `disabled={!isFormValid}`). -/
def isFormValid (pH turbidity temperature dissolvedOxygen : String) : Bool :=
  truthyStr pH && truthyStr turbidity && truthyStr temperature &&
    truthyStr dissolvedOxygen

/-- Numeric value of a decimal digit character. -/
def digitVal (c : Char) : ℕ := c.toNat - '0'.toNat

/-- The natural number denoted by a digit string, most significant
digit first. -/
def natOfDigits (ds : List Char) : ℕ :=
  ds.foldl (fun acc c => 10 * acc + digitVal c) 0

/-- The fractional value denoted by the digit string after a decimal
point. -/
def fracOfDigits (ds : List Char) : ℚ :=
  (natOfDigits ds : ℚ) / (10 : ℚ) ^ ds.length

/-- Model of JavaScript `parseFloat` on the character list of the input
string, restricted to the fragment the form can produce: optional
leading whitespace, optional sign, then the longest prefix
`digits [. digits]` or `. digits`; if that prefix is empty the result
is `NaN` (exponents and the literal `Infinity` are outside the
modelled fragment). -/
def parseFloatAux (cs : List Char) : JVal :=
  let cs1 := cs.dropWhile (fun c => c = ' ' || c = '\t' || c = '\n')
  let signed : ℚ × List Char :=
    match cs1 with
    | '-' :: rest => (-1, rest)
    | '+' :: rest => (1, rest)
    | _ => (1, cs1)
  let intDigits := signed.2.takeWhile Char.isDigit
  let rest := signed.2.dropWhile Char.isDigit
  let fracDigits :=
    match rest with
    | '.' :: r => r.takeWhile Char.isDigit
    | _ => []
  if intDigits.isEmpty && fracDigits.isEmpty then JVal.nan
  else JVal.fin (signed.1 * ((natOfDigits intDigits : ℚ) + fracOfDigits fracDigits))

/-- JavaScript `parseFloat` on a string (see `parseFloatAux`). -/
def parseFloat (s : String) : JVal := parseFloatAux s.toList

/-- A manual reading (interface `ManualReadingData`): four parameter
values that come from `parseFloat` and may be `NaN`, a timestamp and a
location label. -/
structure ManualReadingData where
  pH : JVal
  turbidity : JVal
  temperature : JVal
  dissolvedOxygen : JVal
  timestamp : ℤ
  location : String
deriving DecidableEq

/-- The manual-entry submit handler, from the source (`handleSubmit`):
each field of the form state is passed through `parseFloat`, the
timestamp is the submission instant and the location is the fixed tag
`'Hyderabad'`. -/
def handleSubmit (pH turbidity temperature dissolvedOxygen : String)
    (now : ℤ) : ManualReadingData :=
  { pH := parseFloat pH
    turbidity := parseFloat turbidity
    temperature := parseFloat temperature
    dissolvedOxygen := parseFloat dissolvedOxygen
    timestamp := now
    location := "Hyderabad" }

/-- All four parameter values of a manual reading are finite. -/
def ManualReadingData.allFinite (r : ManualReadingData) : Bool :=
  r.pH.isFinite && r.turbidity.isFinite && r.temperature.isFinite &&
    r.dissolvedOxygen.isFinite

/-- The four parameter values of a generated reading, as JavaScript
numbers (they are rationals, hence embedded as finite values). -/
def WaterQualityData.jsValues (r : WaterQualityData) : List JVal :=
  [JVal.fin r.pH, JVal.fin r.turbidity, JVal.fin r.temperature,
   JVal.fin r.dissolvedOxygen]

/-- A concrete reading, used to instantiate universally quantified
statements. -/
def sampleReading : WaterQualityData :=
  generateWaterBodyData "hussain-sagar" 0.5 0.5 0.5 0.5 0

/-- A concrete reading stream, used to instantiate universally
quantified statements. -/
def sampleGen : ℕ → WaterQualityData := fun _ => sampleReading

/-- One tick keeps exactly the last `min (length + 1) 20` entries. -/
theorem appendReading_length (prev : List WaterQualityData)
    (newData : WaterQualityData) :
    (appendReading prev newData).length = min (prev.length + 1) 20 := by
  simp [appendReading, sliceLast20]
  omega

/-- The seeded timestamps are `now - (10 - i) * 3000` for `i = 0, …, 9`,
whatever readings the generator produces. -/
theorem seedHistory_map_timestamp (gen : ℕ → WaterQualityData) (now : ℤ) :
    (seedHistory gen now).map (fun r => r.timestamp)
      = (List.range 10).map (fun i : ℕ => now - (10 - (i : ℤ)) * 3000) := by
  simp only [seedHistory, List.map_map]
  rfl

/-- On finite arguments the classifier is the nested conditional over
rational comparisons. -/
theorem getStatus_fin_eq (v mn mx ol oh : ℚ) :
    getStatus (JVal.fin v) (JVal.fin mn) (JVal.fin mx) (JVal.fin ol, JVal.fin oh)
      = if v < mn ∨ mx < v then Status.danger
        else if ol ≤ v ∧ v ≤ oh then Status.good
        else Status.warning := by
  simp only [getStatus, jlt, jle, jgt, jge, Bool.or_eq_true, Bool.and_eq_true,
    decide_eq_true_eq]

/-- C1: for every finite value and finite per-parameter thresholds,
`getStatus` returns `danger` iff the value is below `min` or above
`max`, `good` iff it is within `[min, max]` and within
`[optimalLow, optimalHigh]`, and `warning` iff it is within
`[min, max]` but outside the optimal sub-range; the result is always
one of the three statuses; and the three concrete examples from the
spec hold. -/
theorem getStatus_finite_spec (v mn mx ol oh : ℚ) :
    (getStatus (JVal.fin v) (JVal.fin mn) (JVal.fin mx) (JVal.fin ol, JVal.fin oh)
        = Status.danger ↔ v < mn ∨ mx < v) ∧
    (getStatus (JVal.fin v) (JVal.fin mn) (JVal.fin mx) (JVal.fin ol, JVal.fin oh)
        = Status.good ↔ (mn ≤ v ∧ v ≤ mx) ∧ (ol ≤ v ∧ v ≤ oh)) ∧
    (getStatus (JVal.fin v) (JVal.fin mn) (JVal.fin mx) (JVal.fin ol, JVal.fin oh)
        = Status.warning ↔ (mn ≤ v ∧ v ≤ mx) ∧ ¬(ol ≤ v ∧ v ≤ oh)) ∧
    (getStatus (JVal.fin v) (JVal.fin mn) (JVal.fin mx) (JVal.fin ol, JVal.fin oh)
        = Status.danger ∨
      getStatus (JVal.fin v) (JVal.fin mn) (JVal.fin mx) (JVal.fin ol, JVal.fin oh)
        = Status.good ∨
      getStatus (JVal.fin v) (JVal.fin mn) (JVal.fin mx) (JVal.fin ol, JVal.fin oh)
        = Status.warning) ∧
    getStatus (JVal.fin 7.0) (JVal.fin 6.0) (JVal.fin 8.5) (JVal.fin 6.5, JVal.fin 7.5)
      = Status.good ∧
    getStatus (JVal.fin 5.9) (JVal.fin 6.0) (JVal.fin 8.5) (JVal.fin 6.5, JVal.fin 7.5)
      = Status.danger ∧
    getStatus (JVal.fin 6.2) (JVal.fin 6.0) (JVal.fin 8.5) (JVal.fin 6.5, JVal.fin 7.5)
      = Status.warning := by
  refine ⟨?_, ?_, ?_, ?_, ?_, ?_, ?_⟩
  · rw [getStatus_fin_eq]
    by_cases h1 : v < mn ∨ mx < v
    · rw [if_pos h1]
      exact iff_of_true rfl h1
    · rw [if_neg h1]
      refine iff_of_false ?_ h1
      by_cases h2 : ol ≤ v ∧ v ≤ oh
      · rw [if_pos h2]; decide
      · rw [if_neg h2]; decide
  · rw [getStatus_fin_eq]
    by_cases h1 : v < mn ∨ mx < v
    · rw [if_pos h1]
      refine iff_of_false (by decide) ?_
      intro hc
      rcases h1 with h | h <;> rcases hc with ⟨⟨ha, hb⟩, hco⟩ <;> linarith
    · by_cases h2 : ol ≤ v ∧ v ≤ oh
      · rw [if_neg h1, if_pos h2]
        push_neg at h1
        exact iff_of_true rfl ⟨⟨h1.1, h1.2⟩, h2⟩
      · rw [if_neg h1, if_neg h2]
        exact iff_of_false (by decide) fun hc => h2 hc.2
  · rw [getStatus_fin_eq]
    by_cases h1 : v < mn ∨ mx < v
    · rw [if_pos h1]
      refine iff_of_false (by decide) ?_
      intro hc
      rcases h1 with h | h <;> rcases hc with ⟨⟨ha, hb⟩, hco⟩ <;> linarith
    · by_cases h2 : ol ≤ v ∧ v ≤ oh
      · rw [if_neg h1, if_pos h2]
        exact iff_of_false (by decide) fun hc => hc.2 h2
      · rw [if_neg h1, if_neg h2]
        push_neg at h1
        exact iff_of_true rfl ⟨⟨h1.1, h1.2⟩, h2⟩
  · rw [getStatus_fin_eq]
    split_ifs <;> simp
  · rw [getStatus_fin_eq]
    norm_num
  · rw [getStatus_fin_eq]
    norm_num
  · rw [getStatus_fin_eq]
    norm_num

/-- C10: `getStatus` is total on all inputs including `NaN`; with a
`NaN` value every comparison is `false`, so the result is `warning`
for every choice of thresholds (`NaN` thresholds included), and never
`danger` or `good`. -/
theorem getStatus_nan_warning (mn mx ol oh : JVal) :
    getStatus JVal.nan mn mx (ol, oh) = Status.warning ∧
    getStatus JVal.nan mn mx (ol, oh) ≠ Status.danger ∧
    getStatus JVal.nan mn mx (ol, oh) ≠ Status.good := by
  have h : getStatus JVal.nan mn mx (ol, oh) = Status.warning := by
    cases mn <;> cases mx <;> cases ol <;> cases oh <;> rfl
  rw [h]
  exact ⟨rfl, by decide, by decide⟩

/-- C5: every reading produced by the sample generator has turbidity at
least 0.1 and dissolved oxygen at least 3.0, for every site (hence
every baseline) and every noise draw. -/
theorem generateWaterBodyData_floors (waterBodyId : String)
    (u1 u2 u3 u4 : ℚ) (now : ℤ) :
    0.1 ≤ (generateWaterBodyData waterBodyId u1 u2 u3 u4 now).turbidity ∧
    3 ≤ (generateWaterBodyData waterBodyId u1 u2 u3 u4 now).dissolvedOxygen := by
  exact ⟨le_max_left _ _, le_max_left _ _⟩

/-- Outside the `Object.prototype` member names, the full JavaScript
lookup agrees with the baseline table `getWaterBodyBaseline`. -/
theorem waterBodyBaselineLookup_eq_baseline (waterBodyId : String)
    (h : waterBodyId ∉ objectPrototypeMembers) :
    waterBodyBaselineLookup waterBodyId
      = BaselineLookup.baseline (getWaterBodyBaseline waterBodyId) := by
  unfold waterBodyBaselineLookup getWaterBodyBaseline
  split_ifs <;> rfl

/-- C6 counterexample: the unrecognized id `"toString"` names an
`Object.prototype` member, so the JavaScript lookup returns the truthy
inherited member rather than falling back to the default baseline: in
particular the result is not the `hussain-sagar` baseline, refuting
the universal fallback clause of the claim at a concrete input. -/
theorem waterBodyBaselineLookup_toString_cex :
    "toString" ∉ waterBodyIds ∧
    waterBodyBaselineLookup "toString" = BaselineLookup.inherited "toString" ∧
    waterBodyBaselineLookup "toString" ≠ waterBodyBaselineLookup "hussain-sagar" := by
  refine ⟨by decide, by decide, ?_⟩
  intro hc
  rw [show waterBodyBaselineLookup "toString"
        = BaselineLookup.inherited "toString" from by decide,
      show waterBodyBaselineLookup "hussain-sagar"
        = BaselineLookup.baseline ⟨7.8, 2.5, 24, 6.5⟩ from rfl] at hc
  exact BaselineLookup.noConfusion hc

/-- C6 (amended): the baseline lookup is total and never fails: each
of the six recognized site ids returns that site's baseline; an
unrecognized id that does not name an `Object.prototype` member
returns the fixed default baseline of `hussain-sagar`; but an id that
names an `Object.prototype` member returns the truthy inherited member
instead of a baseline, so for those ids the default fallback does not
fire. -/
theorem waterBodyBaselineLookup_total :
    waterBodyBaselineLookup "hussain-sagar" = BaselineLookup.baseline ⟨7.8, 2.5, 24, 6.5⟩ ∧
    waterBodyBaselineLookup "musi-river" = BaselineLookup.baseline ⟨6.8, 4.0, 26, 5.5⟩ ∧
    waterBodyBaselineLookup "himayat-sagar" = BaselineLookup.baseline ⟨7.2, 1.2, 22, 8.0⟩ ∧
    waterBodyBaselineLookup "osman-sagar" = BaselineLookup.baseline ⟨7.1, 1.0, 21, 8.5⟩ ∧
    waterBodyBaselineLookup "durgam-cheruvu" = BaselineLookup.baseline ⟨7.5, 1.8, 23, 7.2⟩ ∧
    waterBodyBaselineLookup "groundwater-1" = BaselineLookup.baseline ⟨6.9, 0.5, 25, 7.8⟩ ∧
    (∀ waterBodyId : String, waterBodyId ∉ waterBodyIds →
      waterBodyId ∉ objectPrototypeMembers →
      waterBodyBaselineLookup waterBodyId
        = waterBodyBaselineLookup "hussain-sagar") ∧
    (∀ waterBodyId : String, waterBodyId ∈ objectPrototypeMembers →
      waterBodyBaselineLookup waterBodyId
        = BaselineLookup.inherited waterBodyId) := by
  refine ⟨rfl, rfl, rfl, rfl, rfl, rfl, ?_, ?_⟩
  · intro waterBodyId hid hm
    simp only [waterBodyIds, List.mem_cons, List.not_mem_nil, or_false,
      not_or] at hid
    obtain ⟨h1, h2, h3, h4, h5, h6⟩ := hid
    simp [waterBodyBaselineLookup, h1, h2, h3, h4, h5, h6, hm]
  · intro waterBodyId hm
    fin_cases hm <;> rfl

/-- C6 witness: the plain unrecognized id `"tank-bund"` falls back to
the default baseline, while the `Object.prototype` member name
`"valueOf"` yields the inherited member. -/
theorem waterBodyBaselineLookup_total_witness :
    ("tank-bund" ∉ waterBodyIds ∧ "tank-bund" ∉ objectPrototypeMembers ∧
      waterBodyBaselineLookup "tank-bund"
        = waterBodyBaselineLookup "hussain-sagar") ∧
    ("valueOf" ∈ objectPrototypeMembers ∧
      waterBodyBaselineLookup "valueOf" = BaselineLookup.inherited "valueOf") :=
  ⟨⟨by decide, by decide,
      waterBodyBaselineLookup_total.2.2.2.2.2.2.1 "tank-bund"
        (by decide) (by decide)⟩,
    ⟨by decide,
      waterBodyBaselineLookup_total.2.2.2.2.2.2.2 "valueOf" (by decide)⟩⟩

/-- C7: for every site baseline and `Math.random()` draws in `[0, 1)`,
the generated pH and temperature are within `±0.5` and `±1.5` of the
baseline, and turbidity and dissolved oxygen are the baseline plus
noise of amplitude at most `0.75` and `1.0` respectively, before their
floors are applied; generation is a total function. -/
theorem generateWaterBodyData_noise_bounds (waterBodyId : String)
    (u1 u2 u3 u4 : ℚ) (now : ℤ)
    (h1 : 0 ≤ u1) (h1' : u1 < 1) (h2 : 0 ≤ u2) (h2' : u2 < 1)
    (h3 : 0 ≤ u3) (h3' : u3 < 1) (h4 : 0 ≤ u4) (h4' : u4 < 1) :
    |(generateWaterBodyData waterBodyId u1 u2 u3 u4 now).pH
        - (getWaterBodyBaseline waterBodyId).pH| ≤ 0.5 ∧
    |(generateWaterBodyData waterBodyId u1 u2 u3 u4 now).temperature
        - (getWaterBodyBaseline waterBodyId).temperature| ≤ 1.5 ∧
    (∃ n : ℚ, |n| ≤ 0.75 ∧
      (generateWaterBodyData waterBodyId u1 u2 u3 u4 now).turbidity
        = max 0.1 ((getWaterBodyBaseline waterBodyId).turbidity + n)) ∧
    (∃ n : ℚ, |n| ≤ 1 ∧
      (generateWaterBodyData waterBodyId u1 u2 u3 u4 now).dissolvedOxygen
        = max 3 ((getWaterBodyBaseline waterBodyId).dissolvedOxygen + n)) := by
  simp only [generateWaterBodyData]
  refine ⟨?_, ?_, ⟨(u2 - 0.5) * 1.5, ?_, rfl⟩, ⟨(u4 - 0.5) * 2.0, ?_, rfl⟩⟩ <;>
    · rw [abs_le]
      constructor <;> nlinarith

/-- C7 witness: the noise bounds at site `"hussain-sagar"` with every
draw equal to `0.5`. -/
theorem generateWaterBodyData_noise_bounds_witness :
    ((0 : ℚ) ≤ 0.5 ∧ (0.5 : ℚ) < 1) ∧
    (|(generateWaterBodyData "hussain-sagar" 0.5 0.5 0.5 0.5 0).pH
        - (getWaterBodyBaseline "hussain-sagar").pH| ≤ 0.5 ∧
    |(generateWaterBodyData "hussain-sagar" 0.5 0.5 0.5 0.5 0).temperature
        - (getWaterBodyBaseline "hussain-sagar").temperature| ≤ 1.5 ∧
    (∃ n : ℚ, |n| ≤ 0.75 ∧
      (generateWaterBodyData "hussain-sagar" 0.5 0.5 0.5 0.5 0).turbidity
        = max 0.1 ((getWaterBodyBaseline "hussain-sagar").turbidity + n)) ∧
    (∃ n : ℚ, |n| ≤ 1 ∧
      (generateWaterBodyData "hussain-sagar" 0.5 0.5 0.5 0.5 0).dissolvedOxygen
        = max 3 ((getWaterBodyBaseline "hussain-sagar").dissolvedOxygen + n))) :=
  ⟨⟨by norm_num, by norm_num⟩,
    generateWaterBodyData_noise_bounds "hussain-sagar" 0.5 0.5 0.5 0.5 0
      (by norm_num) (by norm_num) (by norm_num) (by norm_num)
      (by norm_num) (by norm_num) (by norm_num) (by norm_num)⟩

/-- C2: for every site, the history seeded at initialization has 10
entries, and after any number of interval ticks its length never
exceeds 20, whatever readings the generators produce. -/
theorem history_length_le_twenty (genSeed genTick : ℕ → WaterQualityData)
    (now : ℤ) (n : ℕ) :
    (seedHistory genSeed now).length = 10 ∧
    (iterateTicks genTick (seedHistory genSeed now) n).length ≤ 20 := by
  have hseed : (seedHistory genSeed now).length = 10 := by
    simp [seedHistory]
  refine ⟨hseed, ?_⟩
  induction n with
  | zero =>
    rw [iterateTicks, hseed]
    omega
  | succ n ih =>
    rw [iterateTicks, appendReading_length]
    omega

/-- C4: one tick maps a previous history to the previous history with
the new reading appended at the tail and then truncated to the most
recent 20 entries by dropping from the front; the result is a suffix
of the appended list (so the oldest-first order is preserved), its
length is `min (previous + 1) 20`, and when the previous length is
below 20 no entry is dropped. -/
theorem appendReading_spec (prev : List WaterQualityData)
    (newData : WaterQualityData) :
    appendReading prev newData
      = (prev ++ [newData]).drop (prev.length + 1 - 20) ∧
    (appendReading prev newData).length = min (prev.length + 1) 20 ∧
    List.IsSuffix (appendReading prev newData) (prev ++ [newData]) ∧
    (prev.length < 20 → appendReading prev newData = prev ++ [newData]) := by
  refine ⟨?_, appendReading_length prev newData, ?_, ?_⟩
  · simp [appendReading, sliceLast20]
  · exact (prev ++ [newData]).drop_suffix _
  · intro hlt
    have hz : prev.length + 1 - 20 = 0 := by omega
    simp [appendReading, sliceLast20, hz]

/-- C4 witness: appending to an empty history drops nothing. -/
theorem appendReading_spec_witness :
    ([] : List WaterQualityData).length < 20 ∧
    appendReading [] sampleReading = [] ++ [sampleReading] :=
  ⟨by decide, (appendReading_spec [] sampleReading).2.2.2 (by decide)⟩

/-- C8 counterexample: with initialization instant 30000 ms the last
seeded timestamp is 27000 ms, i.e. 3 seconds before the
initialization instant, not the initialization instant itself. -/
theorem seedHistory_end_cex :
    ((seedHistory sampleGen 30000).map (fun r => r.timestamp)).getLast?
      = some 27000 ∧ (27000 : ℤ) ≠ 30000 := by
  constructor
  · rw [seedHistory_map_timestamp]
    decide
  · decide

/-- C8 (amended): initialization seeds each site's history with
exactly 10 synthetic readings whose timestamps are backdated, spaced
3 seconds apart, ordered oldest-first, and ending 3 seconds before the
initialization instant (the `i`-th timestamp is
`now - (10 - i) * 3000`, so the last one is `now - 3000`). -/
theorem seedHistory_spec (gen : ℕ → WaterQualityData) (now : ℤ) :
    (seedHistory gen now).length = 10 ∧
    (seedHistory gen now).map (fun r => r.timestamp)
      = (List.range 10).map (fun i : ℕ => now - (10 - (i : ℤ)) * 3000) ∧
    List.Chain' (fun a b => b = a + 3000 ∧ a < b)
      ((seedHistory gen now).map (fun r => r.timestamp)) ∧
    ((seedHistory gen now).map (fun r => r.timestamp)).getLast?
      = some (now - 3000) := by
  have hmap := seedHistory_map_timestamp gen now
  have hrange : List.range 10 = [0, 1, 2, 3, 4, 5, 6, 7, 8, 9] := by decide
  refine ⟨by simp [seedHistory], hmap, ?_, ?_⟩
  · rw [hmap, hrange]
    simp only [List.map_cons, List.map_nil, List.chain'_cons, List.chain'_singleton]
    push_cast
    repeat' apply And.intro
    all_goals first
      | trivial
      | omega
  · rw [hmap, hrange]
    simp only [List.map_cons, List.map_nil, List.getLast?_cons_cons,
      List.getLast?_singleton, Option.some.injEq]
    push_cast
    omega

/-- C3 counterexample: with the pH field `"abc"` (non-empty but not a
parseable number) and numeric values in the other fields, the form is
valid, so submission is enabled even though a field is non-numeric. -/
theorem isFormValid_nonnumeric_cex :
    isFormValid "abc" "1.0" "2.0" "3.0" = true ∧
    parseFloat "abc" = JVal.nan := by
  exact ⟨rfl, by decide⟩

/-- C3 (amended): the manual-entry submit action is enabled if and
only if all four fields are non-empty strings; emptiness is the only
check, so a non-empty field that does not parse as a number still
enables submission. -/
theorem isFormValid_iff (pH turbidity temperature dissolvedOxygen : String) :
    isFormValid pH turbidity temperature dissolvedOxygen = true ↔
      pH ≠ "" ∧ turbidity ≠ "" ∧ temperature ≠ "" ∧ dissolvedOxygen ≠ "" := by
  simp [isFormValid, truthyStr, and_assoc]

/-- C9 counterexample: a manual submission with the non-empty,
non-numeric pH field `"abc"` is enabled, yet the constructed reading
has a `NaN` pH, so not every reading held by the system has finite
parameter values. -/
theorem handleSubmit_nan_cex :
    isFormValid "abc" "1" "2" "3" = true ∧
    (handleSubmit "abc" "1" "2" "3" 0).pH = JVal.nan ∧
    (handleSubmit "abc" "1" "2" "3" 0).allFinite = false := by
  exact ⟨rfl, by decide, by decide⟩

/-- C9 (amended): every reading produced by the sample generator has
finite values for all four parameters, and a manual-entry reading has
finite values for all four parameters if and only if each of the four
submitted field strings parses to a number. -/
theorem reading_finiteness (waterBodyId : String) (u1 u2 u3 u4 : ℚ)
    (now : ℤ) (pH turbidity temperature dissolvedOxygen : String) (t : ℤ) :
    (∀ v ∈ (generateWaterBodyData waterBodyId u1 u2 u3 u4 now).jsValues,
        v.isFinite = true) ∧
    ((handleSubmit pH turbidity temperature dissolvedOxygen t).allFinite = true ↔
      (parseFloat pH).isFinite = true ∧ (parseFloat turbidity).isFinite = true ∧
      (parseFloat temperature).isFinite = true ∧
      (parseFloat dissolvedOxygen).isFinite = true) := by
  constructor
  · intro v hv
    simp only [WaterQualityData.jsValues, List.mem_cons, List.not_mem_nil,
      or_false] at hv
    rcases hv with h | h | h | h <;> subst h <;> rfl
  · simp [handleSubmit, ManualReadingData.allFinite, and_assoc]

/-- C9 witness: the generator finiteness at a concrete reading value,
and the manual-entry finiteness equivalence at concrete field
strings. -/
theorem reading_finiteness_witness :
    (JVal.fin ((generateWaterBodyData "hussain-sagar" 0.5 0.5 0.5 0.5 0).pH)).isFinite
      = true ∧
    ((handleSubmit "6.5" "1" "20" "8" 0).allFinite = true ↔
      (parseFloat "6.5").isFinite = true ∧ (parseFloat "1").isFinite = true ∧
      (parseFloat "20").isFinite = true ∧ (parseFloat "8").isFinite = true) :=
  ⟨(reading_finiteness "hussain-sagar" 0.5 0.5 0.5 0.5 0 "6.5" "1" "20" "8" 0).1 _
      (by simp [WaterQualityData.jsValues]),
    (reading_finiteness "hussain-sagar" 0.5 0.5 0.5 0.5 0 "6.5" "1" "20" "8" 0).2⟩

end AquaEye
